import Mathlib

/-!
Verification development for the AIStudioFloorPlan repository.

The definitions below are a shallow embedding, translated from the
TypeScript source (src/services/geminiService.ts, the slide renderer in
src/unnamed/part_003, and the interactive scene modal in
src/unnamed/part_000).  External effects are made explicit:

* the upstream AI API is a parameter (`Nat → …` giving the outcome of the
  n-th call, 0-indexed, or `String → Nat → …` when calls depend on the
  prompt sent);
* JavaScript exceptions become `Except String`, the error being the
  thrown message;
* JavaScript numbers are `Rat` (camera / layout arithmetic) or `Int`/`Nat`
  (font sizes, counters) — no floating point is involved in the claims;
* `Math.random()`/`Date.now()` become explicit inputs (variation index,
  timestamp);
* canvas text measurement (`ctx.measureText`) is an oracle parameter
  `measure`.
-/

deriving instance DecidableEq for Except

namespace AIStudioFloorPlan

/-! ### String helpers (substring test, decimal rendering) -/

/-- `listStartsWith pat s` is true when `pat` is an initial segment of `s`. -/
def listStartsWith : List Char → List Char → Bool
  | [], _ => true
  | _ :: _, [] => false
  | a :: as, b :: bs => a == b && listStartsWith as bs

/-- `listHasSub pat s` is true when `pat` occurs contiguously inside `s`
(the shallow counterpart of JavaScript `String.prototype.includes`). -/
def listHasSub (pat : List Char) : List Char → Bool
  | [] => listStartsWith pat []
  | c :: rest => listStartsWith pat (c :: rest) || listHasSub pat rest

/-- JavaScript `msg.includes(pat)`. -/
def strHasSub (s pat : String) : Bool := listHasSub pat.toList s.toList

/-- The decimal digit character for `d < 10`. -/
def digitChar (d : Nat) : Char := Char.ofNat (48 + d)

/-- Decimal rendering worker; `fuel` bounds the recursion depth and any
`fuel > n` is sufficient. -/
def natDecAux : Nat → Nat → List Char
  | 0, _ => []
  | fuel + 1, n =>
    if n < 10 then [digitChar n]
    else natDecAux fuel (n / 10) ++ [digitChar (n % 10)]

/-- Decimal rendering of a natural number as a character list — the model
of JavaScript template interpolation of a number. -/
def natDec (n : Nat) : List Char := natDecAux (n + 1) n

/-- Decimal rendering as a string. -/
def natStr (n : Nat) : String := String.mk (natDec n)

/-! ### Response model and `processGeminiResponse`
(src/services/geminiService.ts lines 48-59) -/

/-- One content part of a model response: optional inline image payload
`(mimeType, data)` and optional text. -/
structure GPart where
  inlineData : Option (String × String) := none
  text : Option String := none
deriving DecidableEq

/-- A model response, restricted to what the code reads: the first
candidate's content parts, and the SDK `response.text` accessor value
(empty string when the response carries no text). -/
structure GResponse where
  parts : List GPart
  text : String := ""
deriving DecidableEq

/-- `parts.find(part => part.inlineData)?.inlineData` — the inline payload
of the first part that carries one. -/
def firstInline : List GPart → Option (String × String)
  | [] => none
  | p :: rest =>
    match p.inlineData with
    | some md => some md
    | none => firstInline rest

/-- `processGeminiResponse`: return a data URL built from the first inline
image part, else throw an error quoting the response text (or a fixed
placeholder when the text is empty). -/
def processGeminiResponse (response : GResponse) : Except String String :=
  match firstInline response.parts with
  | some (mimeType, data) => .ok ("data:" ++ mimeType ++ ";base64," ++ data)
  | none =>
    .error ("The AI model responded with text instead of an image: \"" ++
      (if response.text = "" then "No text response received." else response.text) ++ "\"")

/-! ### `callGeminiWithRetry` (src/services/geminiService.ts lines 67-93) -/

/-- The transient-error test: the message contains `"code":500` or
`INTERNAL`. -/
def isInternalError (errorMessage : String) : Bool :=
  strHasSub errorMessage "\"code\":500" || strHasSub errorMessage "INTERNAL"

/-- The retry loop of `callGeminiWithRetry`.  `up k` is the outcome of the
k-th upstream call (0-indexed); `attempt` is the 1-based loop counter and
`fuel` the number of loop iterations left (`maxRetries - attempt + 1`).
Returns the overall outcome together with the number of upstream calls
made. -/
def retryLoop {ρ : Type} (up : Nat → Except String ρ) (maxRetries : Nat) :
    Nat → Nat → Except String ρ × Nat
  | _, 0 => (.error "Gemini API call failed after all retries.", maxRetries)
  | attempt, fuel + 1 =>
    match up (attempt - 1) with
    | .ok r => (.ok r, attempt)
    | .error e =>
      if isInternalError e && decide (attempt < maxRetries) then
        retryLoop up maxRetries (attempt + 1) fuel
      else (.error e, attempt)

/-- `callGeminiWithRetry` with its constant `maxRetries = 3`; the request
payload is folded into the upstream parameter.  Result and number of
upstream calls made. -/
def callGeminiWithRetry {ρ : Type} (up : Nat → Except String ρ) : Except String ρ × Nat :=
  retryLoop up 3 1 3

/-! ### `generateArchitecturalImage` (src/services/geminiService.ts lines 148-199) -/

/-- The outcome of one raw `generateContent` call on the architectural
path: either the call threw, or it produced a response. -/
inductive CallOutcome where
  | threw (msg : String)
  | resp (finishReason : Option String) (parts : List GPart)
deriving DecidableEq

/-- The body of one attempt of `generateArchitecturalImage`'s while loop
(the try block): a thrown call error, a `SAFETY` finish reason, a missing
or empty image payload each raise; a part with non-empty inline data
yields a png data URL. -/
def archAttempt : CallOutcome → Except String String
  | .threw msg => .error msg
  | .resp finishReason parts =>
    if finishReason = some "SAFETY" then
      .error "Content was blocked by safety filters"
    else
      match firstInline parts with
      | some (_, data) =>
        if data ≠ "" then .ok ("data:image/png;base64," ++ data)
        else .error "API response did not contain image data"
      | none => .error "API response did not contain image data"

/-- The while loop of `generateArchitecturalImage`.  `up k` is the outcome
of the k-th call (0-indexed, equal to the JS `attempts` counter at call
time); `attempts` is the counter and `fuel` the remaining loop iterations
(`maxAttempts - attempts`).  Returns the outcome and the number of calls
made. -/
def archLoop (up : Nat → CallOutcome) (maxAttempts : Nat) :
    Nat → Nat → Except String String × Nat
  | attempts, 0 => (.error "Architectural image generation failed after all attempts", attempts)
  | attempts, fuel + 1 =>
    match archAttempt (up attempts) with
    | .ok img => (.ok img, attempts + 1)
    | .error e =>
      if attempts + 1 ≥ maxAttempts then
        (.error ("Architectural image generation failed after " ++ natStr maxAttempts ++
          " attempts. Last error: " ++ e), attempts + 1)
      else archLoop up maxAttempts (attempts + 1) fuel

/-- `generateArchitecturalImage` with its constant `maxAttempts = 7`; the
request parts are folded into the upstream parameter.  Result and number
of calls made. -/
def generateArchitecturalImage (up : Nat → CallOutcome) : Except String String × Nat :=
  archLoop up 7 0 7

/-! ### `generateAIRendering` (src/services/geminiService.ts lines 209-281) -/

/-- `Promise.all` over already-settled outcomes listed in candidate order:
succeeds with the list of values when every entry succeeded, otherwise
rejects with the error of the first failing entry in list order (the
browser rejects with the first failure in settle order; which failure is
chosen does not matter to the claims, only that the whole call rejects). -/
def promiseAll {α : Type} : List (Except String α) → Except String (List α)
  | [] => .ok []
  | .ok a :: rest => (promiseAll rest).map (a :: ·)
  | .error e :: _ => .error e

/-- `generateAIRendering` for `numberOfImages` candidates: one
`generateArchitecturalImage` run per candidate (the per-candidate parts
construction — prompt variation plus base image and optional mask — is
folded into `up i`, the call sequence candidate `i` observes), collected
with `Promise.all`. -/
def generateAIRendering (numberOfImages : Nat) (up : Nat → Nat → CallOutcome) :
    Except String (List String) :=
  promiseAll ((List.range numberOfImages).map fun i => (generateArchitecturalImage (up i)).1)

/-! ### `generateDecadeImage` (src/services/geminiService.ts lines 493-540)
with `extractDecade` (lines 38-41), `getFallbackPrompt` (lines 29-31) -/

/-- Does this position start a `\d{4}s` match? -/
def decadeAt : List Char → Option String
  | a :: b :: c :: d :: e :: _ =>
    if a.isDigit && b.isDigit && c.isDigit && d.isDigit && e == 's' then
      some (String.mk [a, b, c, d, e])
    else none
  | _ => none

/-- Leftmost `\d{4}s` match, scanning positions left to right. -/
def findDecade : List Char → Option String
  | [] => none
  | c :: rest =>
    match decadeAt (c :: rest) with
    | some s => some s
    | none => findDecade rest

/-- `extractDecade`: the first match of `/(\d{4}s)/` in the prompt. -/
def extractDecade (prompt : String) : Option String := findDecade prompt.toList

/-- `getFallbackPrompt`. -/
def getFallbackPrompt (decade : String) : String :=
  "Create a photograph of the person in this image as if they were living in the " ++ decade ++
  ". The photograph should capture the distinct fashion, hairstyles, and overall atmosphere of that time period. Ensure the final image is a clear photograph that looks authentic to the era."

/-- JavaScript `\w`: ASCII letter, digit or underscore. -/
def isWordChar (c : Char) : Bool := c.isAlphanum || c == '_'

/-- JavaScript `.` (no `s` flag): any character except a line terminator. -/
def isDotChar (c : Char) : Bool :=
  c ≠ '\n' && c ≠ '\r' && c.toNat ≠ 0x2028 && c.toNat ≠ 0x2029

/-- The regex `^data:(image\/\w+);base64,(.*)$` of `generateDecadeImage`:
on success, the captured mime type and base64 payload. -/
def parseImageDataUrl (s : String) : Option (String × String) :=
  let cs := s.toList
  if listStartsWith "data:image/".toList cs then
    let rest := cs.drop 11
    let sub := rest.takeWhile isWordChar
    let rest2 := rest.drop sub.length
    if sub ≠ [] && listStartsWith ";base64,".toList rest2 &&
        (rest2.drop 8).all isDotChar then
      some ("image/" ++ String.mk sub, String.mk (rest2.drop 8))
    else none
  else none

/-- One full `callGeminiWithRetry` + `processGeminiResponse` pipeline for a
given prompt, as executed inside each try block of `generateDecadeImage`.
`up p k` is the outcome of the k-th upstream call carrying prompt `p`.
Returns the outcome and the number of upstream calls made. -/
def runPrompt (up : String → Nat → Except String GResponse) (p : String) :
    Except String String × Nat :=
  match callGeminiWithRetry (up p) with
  | (.ok response, n) => (processGeminiResponse response, n)
  | (.error e, n) => (.error e, n)

/-- `generateDecadeImage`: validate the data URL, run the original prompt,
and on a refusal-without-image error fall back once to the decade prompt
when a decade is extractable. -/
def generateDecadeImage (up : String → Nat → Except String GResponse)
    (imageDataUrl prompt : String) : Except String String :=
  match parseImageDataUrl imageDataUrl with
  | none => .error "Invalid image data URL format. Expected 'data:image/...;base64,...'"
  | some _ =>
    match (runPrompt up prompt).1 with
    | .ok img => .ok img
    | .error e =>
      if strHasSub e "The AI model responded with text instead of an image" then
        match extractDecade prompt with
        | none => .error e
        | some decade =>
          match (runPrompt up (getFallbackPrompt decade)).1 with
          | .ok img => .ok img
          | .error fallbackError =>
            .error ("The AI model failed with both original and fallback prompts. Last error: " ++
              fallbackError)
      else .error ("The AI model failed to generate an image. Details: " ++ e)

/-! ### `generatePromptVariations` (src/services/geminiService.ts lines 128-141) -/

/-- The seven variation suffixes. -/
def variations : List String :=
  ["",
   ". Please generate a unique result.",
   "; make it distinctive.",
   "! Create something fresh.",
   " - ensure originality.",
   "? Make it stand out.",
   ": focus on uniqueness."]

/-- The variation picked by a random draw `i` (the JS
`variations[Math.floor(Math.random() * variations.length)]`). -/
def variationAt (i : Fin 7) : String := variations.get (Fin.cast (by decide) i)

/-- `generatePromptVariations`, with the random draw and the
`Date.now()` millisecond timestamp as explicit inputs. -/
def generatePromptVariations (basePrompt : String) (i : Fin 7) (timestamp : Nat) : String :=
  basePrompt ++ variationAt i ++ " [" ++ natStr timestamp ++ "]"

/-! ### Camera updates (src/unnamed/part_000, `handleUpdate` lines 27-36
and `handleCameraUpdate` lines 144-153) -/

/-- `GeneratedScene['camera']`. -/
structure Camera where
  rotation : Rat
  tilt : Rat
  zoom : Rat
deriving DecidableEq

/-- A `Partial<GeneratedScene['camera']>` change request: `none` models a
field left `undefined`. -/
structure CameraChanges where
  rotation : Option Rat := none
  tilt : Option Rat := none
  zoom : Option Rat := none
deriving DecidableEq

/-- `handleUpdate` in the first modal variant: no update while loading;
otherwise requested tilt is clamped to [-45, 45], requested zoom to
[0.5, 2.0], and unrequested fields keep their current value. -/
def handleUpdate (isLoading : Bool) (currentCamera : Camera) (cameraChanges : CameraChanges) :
    Option Camera :=
  if isLoading then none
  else some
    { rotation := match cameraChanges.rotation with
        | some r => r
        | none => currentCamera.rotation
      tilt := match cameraChanges.tilt with
        | some t => max (-45) (min 45 t)
        | none => currentCamera.tilt
      zoom := match cameraChanges.zoom with
        | some z => max (1/2) (min 2 z)
        | none => currentCamera.zoom }

/-- `handleCameraUpdate` in the second modal variant — identical logic. -/
def handleCameraUpdate (isLoading : Bool) (currentCamera : Camera)
    (cameraChanges : CameraChanges) : Option Camera :=
  if isLoading then none
  else some
    { rotation := match cameraChanges.rotation with
        | some r => r
        | none => currentCamera.rotation
      tilt := match cameraChanges.tilt with
        | some t => max (-45) (min 45 t)
        | none => currentCamera.tilt
      zoom := match cameraChanges.zoom with
        | some z => max (1/2) (min 2 z)
        | none => currentCamera.zoom }

/-! ### `getLines` (src/unnamed/part_003 lines 76-126) -/

/-- The test `/[一-龥]/.test(text)`: some character lies in the
range U+4E00 – U+9FA5. -/
def isChineseChar (c : Char) : Bool := 0x4E00 ≤ c.toNat && c.toNat ≤ 0x9FA5

/-- `hasChinese` for a whole string. -/
def hasChinese (text : String) : Bool := text.toList.any isChineseChar

/-- The character-by-character wrapping loop (the `hasChinese` branch).
`measure` is `ctx.measureText` at the current font. -/
def wrapCharsLoop (measure : String → Rat) (maxWidth : Rat) :
    List Char → List String → String → List String
  | [], lines, currentLine =>
    if currentLine ≠ "" then lines ++ [currentLine] else lines
  | c :: rest, lines, currentLine =>
    if c = '\n' then wrapCharsLoop measure maxWidth rest (lines ++ [currentLine]) ""
    else
      let testLine := currentLine ++ c.toString
      if measure testLine > maxWidth && currentLine ≠ "" then
        wrapCharsLoop measure maxWidth rest (lines ++ [currentLine]) c.toString
      else
        wrapCharsLoop measure maxWidth rest lines testLine

/-- Worker for JavaScript `text.split(' ')`. -/
def splitSpacesAux : List Char → List String → String → List String
  | [], acc, cur => acc ++ [cur]
  | c :: rest, acc, cur =>
    if c = ' ' then splitSpacesAux rest (acc ++ [cur]) ""
    else splitSpacesAux rest acc (cur ++ c.toString)

/-- JavaScript `text.split(' ')`: split on every single space, keeping
empty fragments. -/
def splitSpaces (text : String) : List String := splitSpacesAux text.toList [] ""

/-- The word-by-word wrapping loop (the non-Chinese branch); empty words
produced by consecutive spaces are skipped. -/
def wrapWordsLoop (measure : String → Rat) (maxWidth : Rat) :
    List String → List String → String → List String
  | [], lines, currentLine =>
    if currentLine ≠ "" then lines ++ [currentLine] else lines
  | w :: rest, lines, currentLine =>
    if w = "" then wrapWordsLoop measure maxWidth rest lines currentLine
    else
      let testLine := if currentLine = "" then w else currentLine ++ " " ++ w
      if measure testLine > maxWidth && currentLine ≠ "" then
        wrapWordsLoop measure maxWidth rest (lines ++ [currentLine]) w
      else
        wrapWordsLoop measure maxWidth rest lines testLine

/-- `getLines`: empty text yields no lines; text containing a character in
U+4E00 – U+9FA5 is wrapped character-by-character, any other text is
wrapped word-by-word on space boundaries. -/
def getLines (measure : String → Rat) (text : String) (maxWidth : Rat) : List String :=
  if text = "" then []
  else if hasChinese text then wrapCharsLoop measure maxWidth text.toList [] ""
  else wrapWordsLoop measure maxWidth (splitSpaces text) [] ""

/-! ### `drawTextWithDynamicSize` (src/unnamed/part_003 lines 129-191) -/

/-- The layout-relevant options of `drawTextWithDynamicSize` (weight,
align and color only affect styling and the x coordinate, not which lines
are drawn at which size). -/
structure TextOptions where
  y : Rat
  maxWidth : Rat
  maxHeight : Rat
  initialFontSize : Int
  minFontSize : Int
  lineHeightRatio : Rat

/-- The shrinking while loop of `drawTextWithDynamicSize`: at font size
`fs`, wrap the text and accept `fs` when
`lines.length * lineHeight ≤ maxHeight`, otherwise retry at `fs - 2`;
give up (`none`) below `minFontSize`.  `measure fs` is `ctx.measureText`
with the font set at size `fs`.  `fuel` bounds the number of loop
iterations; the loop runs at most `(fs - minFontSize).toNat / 2 + 1`
times, so the fuel chosen in `sizeLoop` is never exhausted. -/
def sizeLoopAux (measure : Int → String → Rat) (text : String) (o : TextOptions) :
    Nat → Int → Option Int
  | 0, _ => none
  | fuel + 1, fs =>
    if fs < o.minFontSize then none
    else
      let lines := getLines (measure fs) text o.maxWidth
      if (lines.length : Rat) * ((fs : Rat) * o.lineHeightRatio) ≤ o.maxHeight then some fs
      else sizeLoopAux measure text o fuel (fs - 2)

/-- The shrinking loop started with sufficient fuel. -/
def sizeLoop (measure : Int → String → Rat) (text : String) (o : TextOptions) (fs : Int) :
    Option Int :=
  sizeLoopAux measure text o ((fs - o.minFontSize).toNat + 1) fs

/-- What `drawTextWithDynamicSize` draws: the font size used, the lines
actually drawn (in order), and whether the text fit without truncation. -/
structure DrawResult where
  fontSize : Int
  drawn : List String
  fits : Bool
deriving DecidableEq

/-- `drawTextWithDynamicSize`: take the first size at or below the initial
size whose wrapped text fits the box height and draw every line; if even
`minFontSize` overflows, draw at `minFontSize` only the lines whose y
position satisfies `y < options.y + options.maxHeight - lineHeight`,
silently dropping the rest. -/
def drawTextWithDynamicSize (measure : Int → String → Rat) (text : String) (o : TextOptions) :
    DrawResult :=
  match sizeLoop measure text o o.initialFontSize with
  | some fs =>
    { fontSize := fs, drawn := getLines (measure fs) text o.maxWidth, fits := true }
  | none =>
    let lineHeight := (o.minFontSize : Rat) * o.lineHeightRatio
    let lines := getLines (measure o.minFontSize) text o.maxWidth
    { fontSize := o.minFontSize
      drawn := (lines.enum.filter fun p =>
          o.y + (p.1 : Rat) * lineHeight < o.y + o.maxHeight - lineHeight).map (·.2)
      fits := false }

/-! ### `createPresentationSlides` (src/unnamed/part_003 lines 396-444) -/

/-- The fields of a `GeneratedScene` that the slide builder reads. -/
structure GeneratedScene where
  url : String
  viewIndex : Nat
deriving DecidableEq

/-- One entry of `PresentationText.viewpointDetails`. -/
structure ViewpointDetail where
  title : String
  description : String
deriving DecidableEq

/-- `PresentationText` (src/services/geminiService.ts lines 575-585). -/
structure PresentationText where
  presentationTitle : String
  conceptTitle : String
  mainConcepts : List String
  viewpointDetails : List ViewpointDetail
  conclusionTitle : String
  conclusion : String
deriving DecidableEq

/-- One rendered slide, identified by the draw call that painted it and
the content passed to that call (images are identified by their source
URL). -/
inductive Slide where
  | title (presentationTitle : String) (sceneImages : List String)
  | concept (planImage : String) (mainConcepts : List String)
  | viewpoint (sceneImage : String) (title description : String)
  | conclusion (image : String) (body : String)
deriving DecidableEq

/-- The default viewpoint details used when `text.viewpointDetails[index]`
is missing. -/
def defaultViewpointDetail (scene : GeneratedScene) : ViewpointDetail :=
  { title := "Viewpoint " ++ natStr scene.viewIndex
    description := "This viewpoint showcases the blend of functionality and style." }

/-- `createPresentationSlides`: title slide, concept slide, one viewpoint
slide per scene in order, conclusion slide (whose image is the first scene
image, or the floor plan when there are no scenes).  Language and theme
only affect styling and are omitted. -/
def createPresentationSlides (planImageSrc : String) (scenes : List GeneratedScene)
    (text : PresentationText) : List Slide :=
  let sceneImages := scenes.map (·.url)
  Slide.title text.presentationTitle sceneImages ::
  Slide.concept planImageSrc text.mainConcepts ::
  ((scenes.enum.map fun p =>
      let details := (text.viewpointDetails[p.1]?).getD (defaultViewpointDetail p.2)
      Slide.viewpoint (sceneImages.getD p.1 "") details.title details.description)
    ++ [Slide.conclusion (sceneImages.headD planImageSrc) text.conclusion])

/-! ## Concrete inputs used by counterexamples and witnesses -/

/-- An upstream that fails with a transient signature on the first two
calls and succeeds on the third. -/
def upTransientTwice : Nat → Except String Nat :=
  fun n => if n < 2 then .error "INTERNAL error" else .ok 42

/-- An upstream that always fails with a transient signature. -/
def upAlwaysTransient : Nat → Except String Nat :=
  fun n => .error ("\"code\":500 at call " ++ natStr n)

/-- An upstream that fails with a non-transient error. -/
def upFatal : Nat → Except String Nat :=
  fun _ => .error "permission denied"

/-- An upstream whose every response is safety-blocked. -/
def upSafetyAlways : Nat → CallOutcome :=
  fun _ => .resp (some "SAFETY") []

/-- Four candidates: candidate index 1 (the second) always throws, the
others return an image on their first call. -/
def upMixedCandidates : Nat → Nat → CallOutcome :=
  fun i _ =>
    if i = 1 then .threw "boom"
    else .resp none [{ inlineData := some ("image/png", "AAA") }]

/-- Four candidates that all return an image on their first call. -/
def upAllSucceed : Nat → Nat → CallOutcome :=
  fun _ _ => .resp none [{ inlineData := some ("image/png", "AAA") }]

/-- A prompt-indexed upstream: the original decade prompt only ever draws
a text reply, the fallback prompt returns an image. -/
def upDecadeFallbackOk : String → Nat → Except String GResponse :=
  fun p _ =>
    if p = "a photo set in the 1950s please" then .ok { parts := [], text := "nope" }
    else .ok { parts := [{ inlineData := some ("image/png", "IMG") }], text := "" }

/-- A prompt-indexed upstream that always returns a text-only reply. -/
def upDecadeAlwaysText : String → Nat → Except String GResponse :=
  fun _ _ => .ok { parts := [], text := "" }

/-- A monospace text-measure oracle: 10 units per character, independent
of font size (a valid `ctx.measureText` behaviour for a fixed font). -/
def monoMeasure : String → Rat := fun s => ((s.length * 10 : Nat) : Rat)

/-- A size-proportional monospace measure oracle: each character is as
wide as the font size. -/
def monoSizeMeasure : Int → String → Rat := fun fs s => ((s.length * fs.toNat : Nat) : Rat)

/-- Layout options for the width-overflow counterexample. -/
def opts5 : TextOptions :=
  { y := 0, maxWidth := 40, maxHeight := 100, initialFontSize := 10, minFontSize := 4,
    lineHeightRatio := 1 }

/-! ## Helper lemmas -/

theorem listStartsWith_append (pat rest : List Char) :
    listStartsWith pat (pat ++ rest) = true := by
  induction pat with
  | nil => rfl
  | cons a as ih => simp [listStartsWith, ih]

theorem listHasSub_append (pat pre suf : List Char) :
    listHasSub pat (pre ++ (pat ++ suf)) = true := by
  induction pre with
  | nil =>
    cases h : pat ++ suf with
    | nil =>
      rcases List.append_eq_nil.mp h with ⟨hp, _⟩
      subst hp
      rfl
    | cons c cs =>
      simp only [List.nil_append, listHasSub]
      rw [← h, listStartsWith_append]
      simp
  | cons x xs ih => simp [listHasSub, ih]

/-- `(a ++ p ++ b).includes(p)` — the substring fact used to read off
error-message containment. -/
theorem strHasSub_of_parts (a p b : String) : strHasSub (a ++ p ++ b) p = true := by
  unfold strHasSub
  have h : (a ++ p ++ b).toList = a.toList ++ (p.toList ++ b.toList) := by
    show (a ++ p ++ b).data = a.data ++ (p.data ++ b.data)
    simp [String.data_append]
  rw [h]
  exact listHasSub_append _ _ _

/-! ## C3 — `callGeminiWithRetry` retry behaviour -/

/-- C3: with `maxRetries = 3`, (1) two transient failures then a success
return the success with exactly 3 upstream calls; (2) three transient
failures throw the third error after exactly 3 calls; (3) a non-transient
first failure is rethrown after exactly 1 call. -/
theorem callGeminiWithRetry_claim {ρ : Type} (up : Nat → Except String ρ) (r : ρ)
    (e0 e1 e2 e : String) :
    ((up 0 = .error e0 ∧ isInternalError e0 = true ∧
      up 1 = .error e1 ∧ isInternalError e1 = true ∧
      up 2 = .ok r) →
      callGeminiWithRetry up = (.ok r, 3))
    ∧ ((up 0 = .error e0 ∧ isInternalError e0 = true ∧
        up 1 = .error e1 ∧ isInternalError e1 = true ∧
        up 2 = .error e2) →
      callGeminiWithRetry up = (.error e2, 3))
    ∧ ((up 0 = .error e ∧ isInternalError e = false) →
      callGeminiWithRetry up = (.error e, 1)) := by
  refine ⟨?_, ?_, ?_⟩
  · rintro ⟨h0, h0i, h1, h1i, h2⟩
    simp [callGeminiWithRetry, retryLoop, h0, h0i, h1, h1i, h2]
  · rintro ⟨h0, h0i, h1, h1i, h2⟩
    simp [callGeminiWithRetry, retryLoop, h0, h0i, h1, h1i, h2]
  · rintro ⟨h0, h0i⟩
    simp [callGeminiWithRetry, retryLoop, h0, h0i]

/-- Witness for C3: the three scenarios at concrete upstreams. -/
theorem callGeminiWithRetry_claim_witness :
    callGeminiWithRetry upTransientTwice = (.ok 42, 3)
    ∧ callGeminiWithRetry upAlwaysTransient = (.error "\"code\":500 at call 2", 3)
    ∧ callGeminiWithRetry upFatal = (.error "permission denied", 1) :=
  ⟨(callGeminiWithRetry_claim upTransientTwice 42 "INTERNAL error" "INTERNAL error" "" "").1
      ⟨rfl, by decide, rfl, by decide, rfl⟩,
    (callGeminiWithRetry_claim upAlwaysTransient 42 "\"code\":500 at call 0"
        "\"code\":500 at call 1" "\"code\":500 at call 2" "").2.1
      ⟨rfl, by decide, rfl, by decide, rfl⟩,
    (callGeminiWithRetry_claim upFatal 42 "" "" "" "permission denied").2.2
      ⟨rfl, by decide⟩⟩

/-! ## C8 — `processGeminiResponse` classification -/

/-- C8: a response whose parts contain inline image data yields a data URL
built from the first such part's mime type and payload, regardless of any
text; a response with no image part throws, and the error message quotes
the response text, or the placeholder when the text is empty. -/
theorem processGeminiResponse_claim (r : GResponse) (m d : String) :
    (firstInline r.parts = some (m, d) →
      processGeminiResponse r = .ok ("data:" ++ m ++ ";base64," ++ d))
    ∧ (firstInline r.parts = none → r.text ≠ "" →
      processGeminiResponse r =
        .error ("The AI model responded with text instead of an image: \"" ++ r.text ++ "\"")
      ∧ ∃ msg, processGeminiResponse r = .error msg ∧ strHasSub msg r.text = true)
    ∧ (firstInline r.parts = none → r.text = "" →
      processGeminiResponse r =
        .error "The AI model responded with text instead of an image: \"No text response received.\""
      ∧ ∃ msg, processGeminiResponse r = .error msg ∧
          strHasSub msg "No text response received." = true) := by
  refine ⟨?_, ?_, ?_⟩
  · intro h
    simp [processGeminiResponse, h]
  · intro h ht
    refine ⟨by simp [processGeminiResponse, h, ht], ?_⟩
    refine ⟨"The AI model responded with text instead of an image: \"" ++ r.text ++ "\"",
      by simp [processGeminiResponse, h, ht], ?_⟩
    exact strHasSub_of_parts "The AI model responded with text instead of an image: \"" _ "\""
  · intro h ht
    refine ⟨by simp [processGeminiResponse, h, ht], ?_⟩
    exact ⟨"The AI model responded with text instead of an image: \"No text response received.\"",
      by simp [processGeminiResponse, h, ht], by decide⟩

/-- Witness for C8: an image part accompanied by text wins; a text-only
response surfaces its text in the thrown message. -/
theorem processGeminiResponse_claim_witness :
    processGeminiResponse
        { parts := [{ text := some "here you go" },
                    { inlineData := some ("image/png", "XYZ") }], text := "here you go" } =
      .ok "data:image/png;base64,XYZ"
    ∧ processGeminiResponse { parts := [], text := "cannot do that" } =
      .error "The AI model responded with text instead of an image: \"cannot do that\"" :=
  ⟨(processGeminiResponse_claim
      { parts := [{ text := some "here you go" },
                  { inlineData := some ("image/png", "XYZ") }], text := "here you go" }
      "image/png" "XYZ").1 rfl,
   ((processGeminiResponse_claim { parts := [], text := "cannot do that" } "" "").2.1
      rfl (by decide)).1⟩

/-! ## C2 — safety blocks on the architectural path -/

/-- If every attempt in the window fails, the loop exhausts `maxAttempts`
and throws the aggregate error naming the last failure. -/
theorem archLoop_all_fail (up : Nat → CallOutcome) (e : Nat → String) (maxA : Nat) :
    ∀ fuel attempts, attempts + fuel = maxA → 0 < fuel →
    (∀ i, attempts ≤ i → i < maxA → archAttempt (up i) = .error (e i)) →
    archLoop up maxA attempts fuel =
      (.error ("Architectural image generation failed after " ++ natStr maxA ++
        " attempts. Last error: " ++ e (maxA - 1)), maxA) := by
  intro fuel
  induction fuel with
  | zero => intro attempts _ hpos; omega
  | succ f ih =>
    intro attempts hsum _ hfail
    have hstep := hfail attempts le_rfl (by omega)
    by_cases hge : attempts + 1 ≥ maxA
    · have ha1 : attempts + 1 = maxA := by omega
      have ha : attempts = maxA - 1 := by omega
      simp only [archLoop, hstep]
      rw [if_pos hge, ha1, ha]
    · have hrec := ih (attempts + 1) (by omega) (by omega)
        (fun i h1 h2 => hfail i (by omega) h2)
      simp only [archLoop, hstep]
      rw [if_neg hge, hrec]

/-- If every attempt before `k` fails and attempt `k` succeeds, the loop
returns that success after `k + 1` calls. -/
theorem archLoop_success (up : Nat → CallOutcome) (k : Nat) (img : String) (maxA : Nat) :
    ∀ fuel attempts, attempts + fuel = maxA → attempts ≤ k → k < maxA →
    (∀ i, attempts ≤ i → i < k → ∃ ei, archAttempt (up i) = .error ei) →
    archAttempt (up k) = .ok img →
    archLoop up maxA attempts fuel = (.ok img, k + 1) := by
  intro fuel
  induction fuel with
  | zero => intro attempts _ _ _ _ _; omega
  | succ f ih =>
    intro attempts hsum hak hk hfail hok
    rcases Nat.eq_or_lt_of_le hak with heq | hlt
    · subst heq
      simp only [archLoop, hok]
    · obtain ⟨ei, hei⟩ := hfail attempts le_rfl hlt
      have hge : ¬ attempts + 1 ≥ maxA := by omega
      have hrec := ih (attempts + 1) (by omega) (by omega) hk
        (fun i h1 h2 => hfail i (by omega) h2) hok
      simp only [archLoop, hei]
      rw [if_neg hge, hrec]

/-- Counterexample to C2: an upstream whose every response is
safety-blocked.  The first call is classified as the safety-block error,
yet the operation makes all 7 calls — the safety block is retried, not
immediately terminal — and the eventual error is the 7-attempt aggregate,
so the claimed immediate throw (after exactly one call) is false. -/
theorem generateArchitecturalImage_safety_counterexample :
    archAttempt (upSafetyAlways 0) = .error "Content was blocked by safety filters"
    ∧ (generateArchitecturalImage upSafetyAlways).2 = 7
    ∧ ¬ (generateArchitecturalImage upSafetyAlways).2 = 1
    ∧ (generateArchitecturalImage upSafetyAlways).1 =
      .error "Architectural image generation failed after 7 attempts. Last error: Content was blocked by safety filters" := by
  decide

/-- C2 amended: on the architectural path a safety-blocked response is a
failed attempt like any other — it is retried, a later attempt may still
succeed, and only after all 7 attempts fail does the operation throw,
with an aggregate error naming the last failure. -/
theorem generateArchitecturalImage_claim (up : Nat → CallOutcome) (e : Nat → String)
    (k : Nat) (img : String) :
    ((∀ i, i < 7 → archAttempt (up i) = .error (e i)) →
      generateArchitecturalImage up =
        (.error ("Architectural image generation failed after 7 attempts. Last error: " ++ e 6), 7))
    ∧ (k < 7 → (∀ i, i < k → ∃ ei, archAttempt (up i) = .error ei) →
      archAttempt (up k) = .ok img →
      generateArchitecturalImage up = (.ok img, k + 1)) := by
  constructor
  · intro hfail
    exact archLoop_all_fail up e 7 7 0 rfl (by omega) (fun i _ h2 => hfail i h2)
  · intro hk hfail hok
    exact archLoop_success up k img 7 7 0 rfl (by omega) hk
      (fun i _ h2 => hfail i h2) hok

/-- An upstream that throws on its first call and returns an image on the
second. -/
def upFailThenOk : Nat → CallOutcome :=
  fun n =>
    if n = 0 then .threw "transient outage"
    else .resp none [{ inlineData := some ("image/png", "AAA") }]

/-- Witness for C2 amended: the always-blocked upstream exhausts 7 calls;
a first-call failure followed by a success returns the image after 2
calls. -/
theorem generateArchitecturalImage_claim_witness :
    generateArchitecturalImage upSafetyAlways =
      (.error ("Architectural image generation failed after 7 attempts. Last error: " ++
        "Content was blocked by safety filters"), 7)
    ∧ generateArchitecturalImage upFailThenOk = (.ok "data:image/png;base64,AAA", 2) :=
  ⟨(generateArchitecturalImage_claim upSafetyAlways
      (fun _ => "Content was blocked by safety filters") 0 "").1 (fun _ _ => rfl),
   (generateArchitecturalImage_claim upFailThenOk (fun _ => "") 1 "data:image/png;base64,AAA").2
    (by omega)
    (fun i hi => by
      have h0 : i = 0 := by omega
      subst h0
      exact ⟨"transient outage", rfl⟩)
    rfl⟩

/-! ## C1 — `generateAIRendering` aggregation -/

/-- `Promise.all` rejects when some entry rejected. -/
theorem promiseAll_has_error {α : Type} :
    ∀ l : List (Except String α), (∃ e, Except.error e ∈ l) →
    ∃ e, promiseAll l = .error e := by
  intro l
  induction l with
  | nil => rintro ⟨e, he⟩; cases he
  | cons x rest ih =>
    rintro ⟨e, he⟩
    cases x with
    | error e0 => exact ⟨e0, rfl⟩
    | ok a =>
      have hrest : ∃ e, Except.error e ∈ rest := by
        rcases List.mem_cons.mp he with h | h
        · cases h
        · exact ⟨e, h⟩
      obtain ⟨e1, he1⟩ := ih hrest
      exact ⟨e1, by simp [promiseAll, he1, Except.map]⟩

/-- `Promise.all` resolves with all values when every entry resolved. -/
theorem promiseAll_all_ok {α : Type} :
    ∀ l : List (Except String α), (∀ x ∈ l, ∃ a, x = .ok a) →
    ∃ as, promiseAll l = .ok as ∧ as.length = l.length := by
  intro l
  induction l with
  | nil => intro _; exact ⟨[], rfl, rfl⟩
  | cons x rest ih =>
    intro h
    obtain ⟨a, ha⟩ := h x (List.mem_cons_self x rest)
    obtain ⟨as, has, hlen⟩ := ih (fun y hy => h y (List.mem_cons_of_mem _ hy))
    subst ha
    exact ⟨a :: as, by simp [promiseAll, has, Except.map], by simp [hlen]⟩

/-- Counterexample to C1: four candidates where only candidate index 1
fails (its seven attempts all throw) and the other three succeed.  The
claim says the result is an array of exactly the 3 successful images; in
fact `Promise.all` makes the whole operation reject with the failing
candidate's error. -/
theorem generateAIRendering_counterexample :
    (generateArchitecturalImage (upMixedCandidates 0)).1 = .ok "data:image/png;base64,AAA"
    ∧ (generateArchitecturalImage (upMixedCandidates 1)).1 =
      .error "Architectural image generation failed after 7 attempts. Last error: boom"
    ∧ (generateArchitecturalImage (upMixedCandidates 2)).1 = .ok "data:image/png;base64,AAA"
    ∧ (generateArchitecturalImage (upMixedCandidates 3)).1 = .ok "data:image/png;base64,AAA"
    ∧ generateAIRendering 4 upMixedCandidates =
      .error "Architectural image generation failed after 7 attempts. Last error: boom" := by
  decide

/-- C1 amended: whenever at least one of the K candidates fails, the whole
`generateAIRendering` call rejects with a failing candidate's error (the
successful siblings' images are discarded, no partial array is returned);
an array — of exactly K images — is returned only when every candidate
succeeds. -/
theorem generateAIRendering_claim (K : Nat) (up : Nat → Nat → CallOutcome) :
    ((∃ i, i < K ∧ ∃ e, (generateArchitecturalImage (up i)).1 = .error e) →
      ∃ e, generateAIRendering K up = .error e)
    ∧ ((∀ i, i < K → ∃ img, (generateArchitecturalImage (up i)).1 = .ok img) →
      ∃ imgs, generateAIRendering K up = .ok imgs ∧ imgs.length = K) := by
  constructor
  · rintro ⟨i, hi, e, he⟩
    refine promiseAll_has_error _ ⟨e, ?_⟩
    rw [← he]
    exact List.mem_map_of_mem _ (List.mem_range.mpr hi)
  · intro h
    obtain ⟨imgs, himgs, hlen⟩ := promiseAll_all_ok
      ((List.range K).map fun i => (generateArchitecturalImage (up i)).1)
      (by
        intro x hx
        obtain ⟨i, hi, hxi⟩ := List.mem_map.mp hx
        obtain ⟨img, himg⟩ := h i (List.mem_range.mp hi)
        exact ⟨img, by rw [← hxi, himg]⟩)
    exact ⟨imgs, himgs, by simpa using hlen⟩

/-- Witness for C1 amended: the mixed scenario rejects; the all-success
scenario returns 4 images. -/
theorem generateAIRendering_claim_witness :
    (∃ e, generateAIRendering 4 upMixedCandidates = .error e)
    ∧ ∃ imgs, generateAIRendering 4 upAllSucceed = .ok imgs ∧ imgs.length = 4 :=
  ⟨(generateAIRendering_claim 4 upMixedCandidates).1
      ⟨1, by omega, "Architectural image generation failed after 7 attempts. Last error: boom",
        by decide⟩,
   (generateAIRendering_claim 4 upAllSucceed).2
      (fun i _ => ⟨"data:image/png;base64,AAA", by
        have : upAllSucceed i = upAllSucceed 0 := rfl
        rw [this]
        decide⟩)⟩

/-! ## C4 — `generateDecadeImage` fallback substitution -/

/-- C4: when the original prompt's run ends in the refusal-without-image
error and a decade token is extractable, the fallback prompt's full retry
pipeline is run (once): its success is returned as is, and its failure
turns into the single error naming both prompt failures, which also quotes
the fallback failure's message.  When no decade token is extractable, the
original refusal error propagates unchanged. -/
theorem generateDecadeImage_claim (up : String → Nat → Except String GResponse)
    (imageDataUrl prompt : String) (md : String × String) (e decade fe img : String)
    (hurl : parseImageDataUrl imageDataUrl = some md)
    (herr : (runPrompt up prompt).1 = .error e)
    (hmark : strHasSub e "The AI model responded with text instead of an image" = true) :
    (extractDecade prompt = some decade →
      ((runPrompt up (getFallbackPrompt decade)).1 = .ok img →
        generateDecadeImage up imageDataUrl prompt = .ok img)
      ∧ ((runPrompt up (getFallbackPrompt decade)).1 = .error fe →
        generateDecadeImage up imageDataUrl prompt =
          .error ("The AI model failed with both original and fallback prompts. Last error: " ++ fe)
        ∧ strHasSub
            ("The AI model failed with both original and fallback prompts. Last error: " ++ fe)
            "both original and fallback" = true
        ∧ strHasSub
            ("The AI model failed with both original and fallback prompts. Last error: " ++ fe)
            fe = true))
    ∧ (extractDecade prompt = none →
      generateDecadeImage up imageDataUrl prompt = .error e) := by
  constructor
  · intro hdec
    constructor
    · intro hfb
      simp [generateDecadeImage, hurl, herr, hmark, hdec, hfb]
    · intro hfb
      refine ⟨by simp [generateDecadeImage, hurl, herr, hmark, hdec, hfb], ?_, ?_⟩
      · have h := strHasSub_of_parts "The AI model failed with "
          "both original and fallback" (" prompts. Last error: " ++ fe)
        have heq : "The AI model failed with " ++ "both original and fallback" ++
            (" prompts. Last error: " ++ fe) =
            "The AI model failed with both original and fallback prompts. Last error: " ++ fe := by
          simp [← String.append_assoc]
        rwa [heq] at h
      · have h := strHasSub_of_parts
          "The AI model failed with both original and fallback prompts. Last error: " fe ""
        simpa using h
  · intro hdec
    simp [generateDecadeImage, hurl, herr, hmark, hdec]

/-- Witness for C4: with a decade-bearing prompt whose original run only
draws text, the fallback run's image is returned; with an upstream that
always returns text only, the thrown error carries the combined message;
with no extractable decade the original refusal error propagates. -/
theorem generateDecadeImage_claim_witness :
    generateDecadeImage upDecadeFallbackOk "data:image/png;base64,QUJD"
      "a photo set in the 1950s please" = .ok "data:image/png;base64,IMG"
    ∧ generateDecadeImage upDecadeAlwaysText "data:image/png;base64,QUJD"
      "a photo set in the 1950s please" =
      .error ("The AI model failed with both original and fallback prompts. Last error: " ++
        "The AI model responded with text instead of an image: \"No text response received.\"")
    ∧ generateDecadeImage upDecadeAlwaysText "data:image/png;base64,QUJD" "no decade here" =
      .error "The AI model responded with text instead of an image: \"No text response received.\"" :=
  ⟨((generateDecadeImage_claim upDecadeFallbackOk "data:image/png;base64,QUJD"
      "a photo set in the 1950s please" ("image/png", "QUJD")
      "The AI model responded with text instead of an image: \"nope\"" "1950s" ""
      "data:image/png;base64,IMG" (by decide) (by decide) (by decide)).1 (by decide)).1
      (by decide),
   (((generateDecadeImage_claim upDecadeAlwaysText "data:image/png;base64,QUJD"
      "a photo set in the 1950s please" ("image/png", "QUJD")
      "The AI model responded with text instead of an image: \"No text response received.\""
      "1950s"
      "The AI model responded with text instead of an image: \"No text response received.\""
      "" (by decide) (by decide) (by decide)).1 (by decide)).2
      (by decide)).1,
   (generateDecadeImage_claim upDecadeAlwaysText "data:image/png;base64,QUJD"
      "no decade here" ("image/png", "QUJD")
      "The AI model responded with text instead of an image: \"No text response received.\""
      "" "" "" (by decide) (by decide) (by decide)).2 (by decide)⟩

/-! ## C5 — `drawTextWithDynamicSize` auto-fit -/

/-- Layout options for the truncation witness: even the floor size
overflows the box height. -/
def opts5t : TextOptions :=
  { y := 0, maxWidth := 20, maxHeight := 5, initialFontSize := 8, minFontSize := 4,
    lineHeightRatio := 1 }

/-- Any size accepted by the shrinking loop is between the floor and the
starting size and satisfies the height bound. -/
theorem sizeLoopAux_some (measure : Int → String → Rat) (text : String) (o : TextOptions) :
    ∀ fuel fs s, sizeLoopAux measure text o fuel fs = some s →
    o.minFontSize ≤ s ∧ s ≤ fs ∧
    ((getLines (measure s) text o.maxWidth).length : Rat) *
      ((s : Rat) * o.lineHeightRatio) ≤ o.maxHeight := by
  intro fuel
  induction fuel with
  | zero => intro fs s h; cases h
  | succ f ih =>
    intro fs s h
    simp only [sizeLoopAux] at h
    by_cases h1 : fs < o.minFontSize
    · rw [if_pos h1] at h; cases h
    · rw [if_neg h1] at h
      by_cases h2 : ((getLines (measure fs) text o.maxWidth).length : Rat) *
          ((fs : Rat) * o.lineHeightRatio) ≤ o.maxHeight
      · rw [if_pos h2] at h
        injection h with h
        subst h
        exact ⟨by omega, le_rfl, h2⟩
      · rw [if_neg h2] at h
        obtain ⟨hm, hle, hfit⟩ := ih (fs - 2) s h
        exact ⟨hm, by omega, hfit⟩

/-- When the current size already fits the height, the loop accepts it at
once. -/
theorem sizeLoopAux_fits_now (measure : Int → String → Rat) (text : String) (o : TextOptions)
    (fuel : Nat) (fs : Int) (h1 : ¬ fs < o.minFontSize)
    (h2 : ((getLines (measure fs) text o.maxWidth).length : Rat) *
      ((fs : Rat) * o.lineHeightRatio) ≤ o.maxHeight) :
    sizeLoopAux measure text o (fuel + 1) fs = some fs := by
  simp only [sizeLoopAux]
  rw [if_neg h1, if_pos h2]

/-- C5 amended: the font size shrinks below the initial size only when
the wrapped text at the initial size overflows the box *height* — a width
overflow alone merely wraps the text onto more lines at the initial size.
When the box height is met at or above the floor, every wrapped line is
drawn and `lines × lineHeight ≤ maxHeight` holds at the chosen size;
otherwise the floor size is used and only the lines with
`y < options.y + options.maxHeight - lineHeight` are drawn, the remainder
silently dropped. -/
theorem drawTextWithDynamicSize_claim (measure : Int → String → Rat) (text : String)
    (o : TextOptions) (hinit : o.minFontSize ≤ o.initialFontSize) :
    (((getLines (measure o.initialFontSize) text o.maxWidth).length : Rat) *
        ((o.initialFontSize : Rat) * o.lineHeightRatio) ≤ o.maxHeight →
      drawTextWithDynamicSize measure text o =
        { fontSize := o.initialFontSize
          drawn := getLines (measure o.initialFontSize) text o.maxWidth
          fits := true })
    ∧ ((drawTextWithDynamicSize measure text o).fits = true →
      o.minFontSize ≤ (drawTextWithDynamicSize measure text o).fontSize ∧
      (drawTextWithDynamicSize measure text o).fontSize ≤ o.initialFontSize ∧
      (drawTextWithDynamicSize measure text o).drawn =
        getLines (measure (drawTextWithDynamicSize measure text o).fontSize) text o.maxWidth ∧
      ((drawTextWithDynamicSize measure text o).drawn.length : Rat) *
        (((drawTextWithDynamicSize measure text o).fontSize : Rat) * o.lineHeightRatio) ≤
        o.maxHeight)
    ∧ ((drawTextWithDynamicSize measure text o).fits = false →
      (drawTextWithDynamicSize measure text o).fontSize = o.minFontSize ∧
      (drawTextWithDynamicSize measure text o).drawn =
        ((getLines (measure o.minFontSize) text o.maxWidth).enum.filter fun p =>
          o.y + (p.1 : Rat) * ((o.minFontSize : Rat) * o.lineHeightRatio) <
            o.y + o.maxHeight - (o.minFontSize : Rat) * o.lineHeightRatio).map (·.2)) := by
  refine ⟨?_, ?_, ?_⟩
  · intro hfit
    have h := sizeLoopAux_fits_now measure text o
      ((o.initialFontSize - o.minFontSize).toNat) o.initialFontSize (by omega) hfit
    simp [drawTextWithDynamicSize, sizeLoop, h]
  · intro hfits
    rcases hsl : sizeLoop measure text o o.initialFontSize with _ | fs
    · simp [drawTextWithDynamicSize, hsl] at hfits
    · obtain ⟨hm, hle, hfit⟩ := sizeLoopAux_some measure text o _ _ _ hsl
      simp [drawTextWithDynamicSize, hsl, hm, hle, hfit]
  · intro hfits
    rcases hsl : sizeLoop measure text o o.initialFontSize with _ | fs
    · simp [drawTextWithDynamicSize, hsl]
    · simp [drawTextWithDynamicSize, hsl] at hfits

/-- Counterexample to C5: with a monospace measure, the text `"aa bb"` at
the initial size 10 is 50 units wide — wider than the 40-unit box — yet
the size actually used is the (unreduced) initial size, because the two
wrapped lines fit the box height. -/
theorem drawTextWithDynamicSize_counterexample :
    monoSizeMeasure opts5.initialFontSize "aa bb" > opts5.maxWidth
    ∧ drawTextWithDynamicSize monoSizeMeasure "aa bb" opts5 =
      { fontSize := 10, drawn := ["aa", "bb"], fits := true }
    ∧ (drawTextWithDynamicSize monoSizeMeasure "aa bb" opts5).fontSize =
      opts5.initialFontSize := by
  have hg : getLines (monoSizeMeasure 10) "aa bb" (40 : Rat) = ["aa", "bb"] := by decide
  have h2 : drawTextWithDynamicSize monoSizeMeasure "aa bb" opts5 =
      { fontSize := 10, drawn := ["aa", "bb"], fits := true } := by
    norm_num +decide [drawTextWithDynamicSize, sizeLoop, sizeLoopAux, opts5, hg]
  exact ⟨by decide, h2, by rw [h2]; rfl⟩

/-- Witness for C5 amended: the width-overflowing text keeps the initial
size because its wrapped height fits; a box too short even at the floor
size draws the floor-size lines that fit and drops the rest. -/
theorem drawTextWithDynamicSize_claim_witness :
    drawTextWithDynamicSize monoSizeMeasure "aa bb" opts5 =
      { fontSize := 10, drawn := ["aa", "bb"], fits := true }
    ∧ (drawTextWithDynamicSize monoSizeMeasure "aa bb cc dd" opts5t).fontSize =
      opts5t.minFontSize
    ∧ (drawTextWithDynamicSize monoSizeMeasure "aa bb cc dd" opts5t).drawn =
      ((getLines (monoSizeMeasure opts5t.minFontSize) "aa bb cc dd" opts5t.maxWidth).enum.filter
        fun p => opts5t.y + (p.1 : Rat) * ((opts5t.minFontSize : Rat) * opts5t.lineHeightRatio) <
          opts5t.y + opts5t.maxHeight -
            (opts5t.minFontSize : Rat) * opts5t.lineHeightRatio).map (·.2) :=
  by
  have hg : getLines (monoSizeMeasure 10) "aa bb" (40 : Rat) = ["aa", "bb"] := by decide
  have hfit : ((getLines (monoSizeMeasure opts5.initialFontSize) "aa bb"
      opts5.maxWidth).length : Rat) *
      ((opts5.initialFontSize : Rat) * opts5.lineHeightRatio) ≤ opts5.maxHeight := by
    have : getLines (monoSizeMeasure opts5.initialFontSize) "aa bb" opts5.maxWidth =
        ["aa", "bb"] := hg
    rw [this]
    norm_num [opts5]
  have h1 := (drawTextWithDynamicSize_claim monoSizeMeasure "aa bb" opts5 (by decide)).1 hfit
  have hrec : drawTextWithDynamicSize monoSizeMeasure "aa bb cc dd" opts5t =
      { fontSize := 4, drawn := ["aa bb"], fits := false } := by
    have hg8 : getLines (monoSizeMeasure 8) "aa bb cc dd" (20 : Rat) =
        ["aa", "bb", "cc", "dd"] := by decide
    have hg6 : getLines (monoSizeMeasure 6) "aa bb cc dd" (20 : Rat) =
        ["aa", "bb", "cc", "dd"] := by decide
    have hg4 : getLines (monoSizeMeasure 4) "aa bb cc dd" (20 : Rat) =
        ["aa bb", "cc dd"] := by decide
    norm_num +decide [drawTextWithDynamicSize, sizeLoop, sizeLoopAux, opts5t, hg8, hg6, hg4,
      List.enum, List.enumFrom]
  have hfits : (drawTextWithDynamicSize monoSizeMeasure "aa bb cc dd" opts5t).fits = false := by
    rw [hrec]
  refine ⟨?_, ?_, ?_⟩
  · rw [h1]
    simp [opts5, hg]
  · exact ((drawTextWithDynamicSize_claim monoSizeMeasure "aa bb cc dd" opts5t
      (by decide)).2.2 hfits).1
  · exact ((drawTextWithDynamicSize_claim monoSizeMeasure "aa bb cc dd" opts5t
      (by decide)).2.2 hfits).2

/-! ## C6 — script detection in `getLines` -/

/-- Following the spec's words, not the code: "a CJK code point", read as
a code point of the CJK Unified Ideographs block (U+4E00 – U+9FFF) or its
Extension A (U+3400 – U+4DBF).  Used only to state the claim's premise;
the code's own test is `isChineseChar` (U+4E00 – U+9FA5). -/
def specCJKCodePoint (c : Char) : Bool :=
  (0x3400 ≤ c.toNat && c.toNat ≤ 0x4DBF) || (0x4E00 ≤ c.toNat && c.toNat ≤ 0x9FFF)

/-- Counterexample to C6: `龦` is U+9FA6 — a CJK Unified Ideographs code
point — but it lies outside the code's tested range U+4E00 – U+9FA5, so
the string `"龦龦 ab cd"` contains a CJK code point yet is wrapped
word-by-word (breaking at the spaces), not character-by-character: the
two strategies disagree on this input, and the code picks the word-wise
one. -/
theorem getLines_cjk_counterexample :
    ("龦龦 ab cd".toList.any specCJKCodePoint = true)
    ∧ hasChinese "龦龦 ab cd" = false
    ∧ getLines monoMeasure "龦龦 ab cd" 30 = ["龦龦", "ab", "cd"]
    ∧ getLines monoMeasure "龦龦 ab cd" 30 =
      wrapWordsLoop monoMeasure 30 (splitSpaces "龦龦 ab cd") [] ""
    ∧ wrapCharsLoop monoMeasure 30 "龦龦 ab cd".toList [] "" = ["龦龦 ", "ab ", "cd"]
    ∧ ¬ getLines monoMeasure "龦龦 ab cd" 30 =
      wrapCharsLoop monoMeasure 30 "龦龦 ab cd".toList [] "" := by
  decide

/-- C6 amended: a string containing at least one character of the range
U+4E00 – U+9FA5 (the range the code actually tests) is wrapped
character-by-character, and a string with no such character is wrapped
word-by-word on space boundaries — even when it contains CJK code points
outside that range. -/
theorem getLines_claim (measure : String → Rat) (text : String) (maxWidth : Rat) :
    ((∃ c ∈ text.toList, isChineseChar c = true) →
      getLines measure text maxWidth = wrapCharsLoop measure maxWidth text.toList [] "")
    ∧ ((∀ c ∈ text.toList, isChineseChar c = false) → text ≠ "" →
      getLines measure text maxWidth =
        wrapWordsLoop measure maxWidth (splitSpaces text) [] "") := by
  constructor
  · intro h
    have hne : text ≠ "" := by
      rintro rfl
      obtain ⟨c, hc, _⟩ := h
      simp [String.toList] at hc
    have hch : hasChinese text = true := by
      simpa [hasChinese, List.any_eq_true] using h
    rw [getLines, if_neg hne, if_pos hch]
  · intro h hne
    have hch : hasChinese text = false := by
      simp only [hasChinese]
      rw [List.any_eq_false]
      intro c hc
      simp [h c hc]
    rw [getLines, if_neg hne, hch]
    simp

/-- Witness for C6 amended: `個` (U+500B) triggers character-wise
wrapping; a pure-Latin string is wrapped word-by-word. -/
theorem getLines_claim_witness :
    getLines monoMeasure "個個 ab" 20 = wrapCharsLoop monoMeasure 20 "個個 ab".toList [] ""
    ∧ getLines monoMeasure "ab cd" 20 =
      wrapWordsLoop monoMeasure 20 (splitSpaces "ab cd") [] "" :=
  ⟨(getLines_claim monoMeasure "個個 ab" 20).1 ⟨'個', by decide, by decide⟩,
   (getLines_claim monoMeasure "ab cd" 20).2 (by decide) (by decide)⟩

/-! ## C7 — `generatePromptVariations` uniqueness and prefix -/

/-- Decimal reader: consumes decimal digits and a closing `]` at the very
end, accumulating the value — the inverse of `natDec t ++ [']']`. -/
def readDigits : List Char → Nat → Option Nat
  | [], _ => none
  | c :: rest, acc =>
    if c = ']' then (if rest = [] then some acc else none)
    else if c.isDigit then readDigits rest (acc * 10 + (c.toNat - 48)) else none

theorem digitChar_spec (d : Nat) (h : d < 10) :
    (digitChar d).isDigit = true ∧ (digitChar d) ≠ ']' ∧ (digitChar d).toNat = 48 + d := by
  interval_cases d <;> exact ⟨by decide, by decide, by decide⟩

theorem readDigits_natDecAux (fuel : Nat) : ∀ n, n < fuel → ∀ acc rest,
    readDigits (natDecAux fuel n ++ rest) acc =
    readDigits rest (acc * 10 ^ (natDecAux fuel n).length + n) := by
  induction fuel with
  | zero => intro n h; omega
  | succ f ih =>
    intro n hn acc rest
    by_cases h10 : n < 10
    · obtain ⟨hd, hne, htn⟩ := digitChar_spec n h10
      simp [natDecAux, h10, readDigits, hne, hd, htn]
    · have hdiv : n / 10 < f := by
        have h1 : n / 10 < n := Nat.div_lt_self (by omega) (by omega)
        omega
      have hmod : n % 10 < 10 := Nat.mod_lt _ (by omega)
      obtain ⟨hd, hne, htn⟩ := digitChar_spec (n % 10) hmod
      have hstep : ∀ a r, readDigits (digitChar (n % 10) :: r) a =
          readDigits r (a * 10 + n % 10) := by
        intro a r
        simp [readDigits, hne, hd, htn]
      calc readDigits (natDecAux (f + 1) n ++ rest) acc
          = readDigits (natDecAux f (n / 10) ++ (digitChar (n % 10) :: rest)) acc := by
            simp [natDecAux, h10]
        _ = readDigits (digitChar (n % 10) :: rest)
              (acc * 10 ^ (natDecAux f (n / 10)).length + n / 10) := ih (n / 10) hdiv acc _
        _ = readDigits rest
              ((acc * 10 ^ (natDecAux f (n / 10)).length + n / 10) * 10 + n % 10) := hstep _ _
        _ = readDigits rest (acc * 10 ^ (natDecAux (f + 1) n).length + n) := by
            have hlen : (natDecAux (f + 1) n).length = (natDecAux f (n / 10)).length + 1 := by
              simp [natDecAux, h10]
            rw [hlen]
            congr 1
            have := Nat.div_add_mod n 10
            ring_nf
            omega

/-- The decimal rendering of `t` followed by `]` reads back as `t`. -/
theorem readDigits_natDec (n : Nat) : readDigits (natDec n ++ [']']) 0 = some n := by
  have h := readDigits_natDecAux (n + 1) n (by omega) 0 [']']
  simpa [natDec, readDigits] using h

/-- The character-list suffix appended to the base prompt by
`generatePromptVariations`. -/
def suffixData (i : Fin 7) (t : Nat) : List Char :=
  (variationAt i).data ++ ([' ', '['] ++ (natDec t ++ [']']))

theorem generatePromptVariations_data (base : String) (i : Fin 7) (t : Nat) :
    (generatePromptVariations base i t).data = base.data ++ suffixData i t := by
  simp [generatePromptVariations, suffixData, natStr, String.data_append, List.append_assoc]

/-- The first two characters of each variation's suffix. -/
def twoChars : Fin 7 → List Char
  | 0 => [' ', '[']
  | 1 => ['.', ' ']
  | 2 => [';', ' ']
  | 3 => ['!', ' ']
  | 4 => [' ', '-']
  | 5 => ['?', ' ']
  | 6 => [':', ' ']

theorem suffixData_take_two (i : Fin 7) (t : Nat) :
    (suffixData i t).take 2 = twoChars i := by
  fin_cases i <;> rfl

/-- C7 amended: two invocations with the same base prompt differ whenever
their nondeterministic draws differ — a different variation pick or a
different millisecond timestamp — and every output extends the base
prompt (the base is a prefix, hence contained verbatim).  Outputs of two
invocations with identical draws coincide, so uniqueness is not
unconditional. -/
theorem generatePromptVariations_claim (base : String) (i1 i2 : Fin 7) (t1 t2 : Nat) :
    (¬ (i1 = i2 ∧ t1 = t2) →
      generatePromptVariations base i1 t1 ≠ generatePromptVariations base i2 t2)
    ∧ (∃ rest, generatePromptVariations base i1 t1 = base ++ rest) := by
  constructor
  · intro hne heq
    have hdata := congrArg String.data heq
    rw [generatePromptVariations_data, generatePromptVariations_data] at hdata
    have hsuf : suffixData i1 t1 = suffixData i2 t2 := List.append_cancel_left hdata
    by_cases hi : i1 = i2
    · subst hi
      have ht : t1 ≠ t2 := fun h => hne ⟨rfl, h⟩
      have h1 : [' ', '['] ++ (natDec t1 ++ [']']) = [' ', '['] ++ (natDec t2 ++ [']']) :=
        List.append_cancel_left hsuf
      have h2 : natDec t1 ++ [']'] = natDec t2 ++ [']'] := List.append_cancel_left h1
      have h3 : readDigits (natDec t1 ++ [']']) 0 = readDigits (natDec t2 ++ [']']) 0 := by
        rw [h2]
      rw [readDigits_natDec, readDigits_natDec] at h3
      exact ht (Option.some.inj h3)
    · have htake := congrArg (List.take 2) hsuf
      rw [suffixData_take_two, suffixData_take_two] at htake
      fin_cases i1 <;> fin_cases i2 <;> simp_all [twoChars]
  · exact ⟨variationAt i1 ++ " [" ++ natStr t1 ++ "]", by
      simp [generatePromptVariations, String.append_assoc]⟩

/-- Counterexample to C7: two successive invocations that draw the same
variation (index 0) in the same millisecond (`Date.now()` has millisecond
resolution, so this happens in practice) return the identical string —
the outputs of the two invocations are not always different. -/
theorem generatePromptVariations_counterexample :
    generatePromptVariations "p" 0 0 = "p [0]"
    ∧ generatePromptVariations "p" 0 0 = generatePromptVariations "p" 0 0 :=
  ⟨rfl, rfl⟩

/-- Witness for C7 amended: same variation, different timestamps — the
outputs differ, and the base is a prefix. -/
theorem generatePromptVariations_claim_witness :
    generatePromptVariations "p" 3 5 ≠ generatePromptVariations "p" 3 6
    ∧ ∃ rest, generatePromptVariations "p" 3 5 = "p" ++ rest :=
  ⟨(generatePromptVariations_claim "p" 3 3 5 6).1 (by simp),
   (generatePromptVariations_claim "p" 3 3 5 6).2⟩

/-! ## C9 — camera update clamping -/

/-- The two modal variants compute the same camera. -/
theorem handleCameraUpdate_eq_handleUpdate :
    handleCameraUpdate = handleUpdate := rfl

/-- Counterexample to C9: from a starting camera whose tilt is already
100 (out of range), an update requesting only a zoom change returns a
camera whose tilt is still 100 — the unrequested tilt field is copied
unclamped, so the produced record does not always lie in
[-45, 45] × [0.5, 2.0] for *every* starting state. -/
theorem camera_counterexample :
    handleUpdate false ⟨0, 100, 1⟩ { zoom := some 3 } = some ⟨0, 100, 2⟩
    ∧ ¬ ((100 : Rat) ≤ 45) := by
  constructor
  · norm_num [handleUpdate, min_def, max_def]
  · norm_num

/-- C9 amended: a camera update (in either modal variant) clamps every
*requested* tilt into [-45, 45] and every requested zoom into [0.5, 2.0],
copies unrequested fields unchanged (rotation is never clamped), and
therefore preserves the tilt/zoom ranges whenever the starting camera
already satisfies them; an out-of-range starting value survives in an
unrequested field. -/
theorem camera_claim (isLoading : Bool) (cam c' : Camera) (ch : CameraChanges)
    (h : handleUpdate isLoading cam ch = some c' ∨
      handleCameraUpdate isLoading cam ch = some c') :
    ((-45 ≤ cam.tilt ∧ cam.tilt ≤ 45) → (-45 ≤ c'.tilt ∧ c'.tilt ≤ 45))
    ∧ ((1/2 ≤ cam.zoom ∧ cam.zoom ≤ 2) → (1/2 ≤ c'.zoom ∧ c'.zoom ≤ 2))
    ∧ (∀ t, ch.tilt = some t → (-45 ≤ c'.tilt ∧ c'.tilt ≤ 45))
    ∧ (∀ z, ch.zoom = some z → (1/2 ≤ c'.zoom ∧ c'.zoom ≤ 2))
    ∧ (ch.tilt = none → c'.tilt = cam.tilt)
    ∧ (ch.zoom = none → c'.zoom = cam.zoom)
    ∧ (ch.rotation = none → c'.rotation = cam.rotation)
    ∧ (∀ r, ch.rotation = some r → c'.rotation = r) := by
  rw [handleCameraUpdate_eq_handleUpdate, or_self] at h
  cases isLoading with
  | true => simp [handleUpdate] at h
  | false =>
    simp only [handleUpdate, Bool.false_eq_true, if_false] at h
    have hc := (Option.some.inj h).symm
    subst hc
    refine ⟨?_, ?_, ?_, ?_, ?_, ?_, ?_, ?_⟩
    · intro hr
      rcases hct : ch.tilt with _ | t <;> simp only [hct]
      · exact hr
      · exact ⟨le_max_left _ _, max_le (by norm_num) (min_le_left _ _)⟩
    · intro hr
      rcases hcz : ch.zoom with _ | z <;> simp only [hcz]
      · exact hr
      · exact ⟨le_max_left _ _, max_le (by norm_num) (min_le_left _ _)⟩
    · intro t ht
      simp only [ht]
      exact ⟨le_max_left _ _, max_le (by norm_num) (min_le_left _ _)⟩
    · intro z hz
      simp only [hz]
      exact ⟨le_max_left _ _, max_le (by norm_num) (min_le_left _ _)⟩
    · intro ht
      simp [ht]
    · intro hz
      simp [hz]
    · intro hr
      simp [hr]
    · intro r hr
      simp [hr]

/-- Witness for C9 amended: an in-range camera stays in range under a
tilt request beyond the bound (clamped to 45), and an unrequested zoom is
copied. -/
theorem camera_claim_witness :
    handleUpdate false ⟨0, 30, 1⟩ { tilt := some 60 } = some ⟨0, 45, 1⟩
    ∧ ((-45 : Rat) ≤ (45 : Rat) ∧ (45 : Rat) ≤ 45)
    ∧ ((1 : Rat) = 1) := by
  have h : handleUpdate false ⟨0, 30, 1⟩ { tilt := some 60 } = some ⟨0, 45, 1⟩ := by decide
  have hc := (camera_claim false ⟨0, 30, 1⟩ ⟨0, 45, 1⟩ { tilt := some 60 } (Or.inl h)).2.2.1
    60 rfl
  exact ⟨h, hc, rfl⟩

/-! ## C10 — `createPresentationSlides` deck structure -/

/-- C10: for N scenes the deck is exactly N + 3 slides — title, concept,
one viewpoint slide per scene in scene order, conclusion; a scene index
with no matching `viewpointDetails` entry falls back to the default
details (`"Viewpoint <viewIndex>"` with the fixed stock description), and
the conclusion slide shows the first scene's image, or the floor plan
when there are no scenes. -/
theorem cons_cons_getElem_add_two {α : Type} (a b : α) (l : List α) (i : Nat) :
    (a :: b :: l)[i + 2]? = l[i]? := by
  simp [List.getElem?_cons_succ]

theorem createPresentationSlides_claim (plan : String) (scenes : List GeneratedScene)
    (text : PresentationText) :
    (createPresentationSlides plan scenes text).length = scenes.length + 3
    ∧ (createPresentationSlides plan scenes text)[0]? =
      some (.title text.presentationTitle (scenes.map (·.url)))
    ∧ (createPresentationSlides plan scenes text)[1]? =
      some (.concept plan text.mainConcepts)
    ∧ (∀ i scene, scenes[i]? = some scene →
      (createPresentationSlides plan scenes text)[i + 2]? =
        some (.viewpoint scene.url
          ((text.viewpointDetails[i]?).getD (defaultViewpointDetail scene)).title
          ((text.viewpointDetails[i]?).getD (defaultViewpointDetail scene)).description))
    ∧ (createPresentationSlides plan scenes text)[scenes.length + 2]? =
      some (.conclusion (match scenes with | [] => plan | sc :: _ => sc.url)
        text.conclusion) := by
  refine ⟨?_, by simp [createPresentationSlides], by simp [createPresentationSlides], ?_, ?_⟩
  · simp [createPresentationSlides]
  · intro i scene hi
    have hlen : i < scenes.length := (List.getElem?_eq_some_iff.mp hi).1
    rw [createPresentationSlides, cons_cons_getElem_add_two,
      List.getElem?_append_left (by simpa using hlen)]
    simp only [List.getElem?_map, List.getElem?_enum, hi, Option.map_some]
    simp [List.getD, List.getElem?_map, hi]
  · rw [createPresentationSlides, cons_cons_getElem_add_two,
      List.getElem?_append_right (by simp)]
    cases scenes <;> simp

/-- Witness for C10: a two-scene deck where only the first scene has a
`viewpointDetails` entry — five slides, the second viewpoint slide uses
the default details, the conclusion uses the first scene's image. -/
theorem createPresentationSlides_claim_witness :
    (createPresentationSlides "plan.png" [⟨"s1.png", 1⟩, ⟨"s2.png", 2⟩]
      { presentationTitle := "T", conceptTitle := "C", mainConcepts := ["a: b"],
        viewpointDetails := [⟨"vt", "vd"⟩], conclusionTitle := "ct",
        conclusion := "done" }).length = 5
    ∧ (createPresentationSlides "plan.png" [⟨"s1.png", 1⟩, ⟨"s2.png", 2⟩]
      { presentationTitle := "T", conceptTitle := "C", mainConcepts := ["a: b"],
        viewpointDetails := [⟨"vt", "vd"⟩], conclusionTitle := "ct",
        conclusion := "done" })[3]? =
      some (.viewpoint "s2.png" "Viewpoint 2"
        "This viewpoint showcases the blend of functionality and style.")
    ∧ (createPresentationSlides "plan.png" [⟨"s1.png", 1⟩, ⟨"s2.png", 2⟩]
      { presentationTitle := "T", conceptTitle := "C", mainConcepts := ["a: b"],
        viewpointDetails := [⟨"vt", "vd"⟩], conclusionTitle := "ct",
        conclusion := "done" })[4]? = some (.conclusion "s1.png" "done") := by
  have h := createPresentationSlides_claim "plan.png" [⟨"s1.png", 1⟩, ⟨"s2.png", 2⟩]
    { presentationTitle := "T", conceptTitle := "C", mainConcepts := ["a: b"],
      viewpointDetails := [⟨"vt", "vd"⟩], conclusionTitle := "ct", conclusion := "done" }
  refine ⟨by rw [h.1]; rfl, ?_, ?_⟩
  · have hv := h.2.2.2.1 1 ⟨"s2.png", 2⟩ rfl
    simpa [defaultViewpointDetail, natStr, natDec, natDecAux, digitChar] using hv
  · have hc := h.2.2.2.2
    simpa using hc

end AIStudioFloorPlan
